import Mathlib

/-!
Verification of the data pipeline of `src/csv_viewer.py` (sensor-data-viewer).

The file shallowly embeds the language-agnostic pipeline of the program:
timestamp-column resolution, the four-stage filter pipeline, the value-anomaly
clean filter, pagination, the explicit anomaly flag, the chart dispatch and the
line-segment grouping.  Pandas frames become Lean lists of `Row` records,
column presence is read off the schema (`Dataset.cols`), and datetimes are
counted in microseconds.  External parsers (pandas `to_datetime`,
`to_numeric`) appear as explicit parameters or as pre-parsed `Option` fields.
-/

set_option maxHeartbeats 1000000

namespace SensorViewer

/-! ### String helpers modelling the Python string operators used in the source -/

/-- Character-list prefix test, modelling how Python substring search probes
one offset. -/
def strStarts : List Char → List Char → Bool
  | [], _ => true
  | _ :: _, [] => false
  | a :: as, b :: bs => a == b && strStarts as bs

/-- Substring occurrence over character lists (the Python `needle in hay`
operator for strings). -/
def listHas (needle : List Char) : List Char → Bool
  | [] => needle.isEmpty
  | b :: bs => strStarts needle (b :: bs) || listHas needle bs

/-- Python `needle in hay` for strings. -/
def strContains (hay needle : String) : Bool :=
  listHas needle.toList hay.toList

/-- Python `str.lower()` (ASCII letters; CJK characters are unaffected). -/
def pyLower (s : String) : String :=
  String.mk (s.toList.map Char.toLower)

/-- Pandas `astype(str)` on a possibly missing cell: a missing value (NaN)
prints as the string `nan`. -/
def pyStr : Option String → String
  | some s => s
  | none => "nan"

/-! ### Timestamp resolver (src/csv_viewer.py lines 43-62) -/

/-- The fixed candidate list `timestamp_columns` of line 45. -/
def timestamp_columns : List String :=
  ["时间", "时间戳", "timestamp", "时间（秒）", "Time", "time"]

/-- The per-column test of line 50:
`col in timestamp_columns or '时间' in col or 'time' in col.lower() or
'timestamp' in col.lower()`. -/
def isTsCandidate (col : String) : Bool :=
  timestamp_columns.contains col || strContains col "时间" ||
    strContains (pyLower col) "time" || strContains (pyLower col) "timestamp"

/-- The selection loop of lines 48-52: first matching column in schema order
(the loop breaks at the first hit). -/
def findTsCol (cols : List String) : Option String :=
  cols.find? isTsCandidate

/-- `process_timestamp_column` (lines 43-62).  `parse` stands for the external
datetime parser (`pd.to_datetime` on one cell); the conversion of the whole
column succeeds only if every value parses, otherwise the resolver reports a
non-fatal warning and yields no timestamp column.  `vals c` lists the raw
values of column `c`. -/
def process_timestamp_column (parse : String → Option Nat) (cols : List String)
    (vals : String → List String) : Option String :=
  match findTsCol cols with
  | none => none
  | some c => if (vals c).all (fun v => (parse v).isSome) then some c else none

/-! ### Time model (src/csv_viewer.py lines 212-225) -/

/-- A Python `datetime.time` value as used by the end-time widget. -/
structure PyTime where
  hour : Nat
  minute : Nat
  second : Nat
  microsecond : Nat
deriving DecidableEq

/-- `pd.Timestamp.combine(date, time)` counted in microseconds; `dateDays` is
the date as a day count. -/
def combineMicros (dateDays : Nat) (t : PyTime) : Nat :=
  (((dateDays * 24 + t.hour) * 60 + t.minute) * 60 + t.second) * 1000000 + t.microsecond

/-- Lines 215-219: the effective end instant.  When the selected end time has
second and microsecond both zero, `pd.Timedelta(seconds=59, microseconds=999999)`
is added; otherwise the combined instant is used unchanged. -/
def end_datetime (endDate : Nat) (endTime : PyTime) : Nat :=
  if endTime.second = 0 ∧ endTime.microsecond = 0 then
    combineMicros endDate endTime + (59 * 1000000 + 999999)
  else
    combineMicros endDate endTime

/-! ### Data model -/

/-- One CSV record, with the fields the pipeline reads.  `user = none` models a
NaN cell of `用户名`.  `dif` and `raw` are the results of
`pd.to_numeric(str(cell).replace('%', ''), errors='coerce')` on the
`DIF百分比` and `RAW百分比` cells (`none` = NaN, i.e. unparsable).  `abn` is the
cell of the detected anomaly column rendered via `astype(str)`.  `ts` is the
parsed timestamp in microseconds (meaningful when the dataset resolved a
timestamp column). -/
structure Row where
  inEar : String
  user : Option String
  earSide : String
  ts : Nat
  dif : Option ℚ
  raw : Option ℚ
  abn : String
deriving DecidableEq

/-- A loaded dataset: the column schema, whether the timestamp resolver
produced a column (and all its values parsed), and the rows. -/
structure Dataset where
  cols : List String
  tsResolved : Bool
  rows : List Row
deriving DecidableEq

/-- The fixed filter selections of one interaction (the FilterState). -/
structure FilterSel where
  earStatus : List String
  username : String
  earSide : List String
  startDate : Nat
  startTime : PyTime
  endDate : Nat
  endTime : PyTime
deriving DecidableEq

/-- `'是否入耳' in df.columns` (line 130). -/
def hasInEar (ds : Dataset) : Bool := ds.cols.contains "是否入耳"

/-- `'用户名' in df.columns` (line 143; filtering does not change the column
set, so the check on `df_filtered.columns` equals the check on the schema). -/
def hasUser (ds : Dataset) : Bool := ds.cols.contains "用户名"

/-- `'左右耳' in df.columns` (line 157). -/
def hasEarSide (ds : Dataset) : Bool := ds.cols.contains "左右耳"

/-- `'DIF百分比' in df_filtered_clean.columns` (line 252). -/
def hasDif (ds : Dataset) : Bool := ds.cols.contains "DIF百分比"

/-- `'RAW百分比' in df_filtered_clean.columns` (line 256). -/
def hasRaw (ds : Dataset) : Bool := ds.cols.contains "RAW百分比"

/-! ### Filter pipeline (src/csv_viewer.py lines 129-225) -/

/-- Stage 1 (lines 129-139): in-ear inclusion filter, or a plain copy when the
column is absent. -/
def stage1 (ds : Dataset) (sel : FilterSel) (l : List Row) : List Row :=
  if hasInEar ds then l.filter (fun r => sel.earStatus.contains r.inEar) else l

/-- Stage 2 (lines 141-153): user equality filter.  The source guards the
whole block with `'用户名' in df_filtered.columns and not
df_filtered['用户名'].isna().all()` — a test of the stage input — and then
filters by `astype(str) == username` only when the selection is not `全部`. -/
def stage2 (ds : Dataset) (sel : FilterSel) (l : List Row) : List Row :=
  if hasUser ds && l.any (fun r => r.user.isSome) then
    if sel.username ≠ "全部" then
      l.filter (fun r => pyStr r.user == sel.username)
    else l
  else l

/-- Stage 3 (lines 155-164): ear-side inclusion filter. -/
def stage3 (ds : Dataset) (sel : FilterSel) (l : List Row) : List Row :=
  if hasEarSide ds then l.filter (fun r => sel.earSide.contains r.earSide) else l

/-- `start_datetime` of line 213. -/
def start_datetime (sel : FilterSel) : Nat :=
  combineMicros sel.startDate sel.startTime

/-- The effective end instant of lines 215-219 for the current selections. -/
def end_datetimeOf (sel : FilterSel) : Nat :=
  end_datetime sel.endDate sel.endTime

/-- Stage 4 (lines 166-235): closed time-range filter, applied only when a
timestamp column was resolved and the original frame is non-empty
(`if timestamp_col and len(df) > 0`). -/
def stage4 (ds : Dataset) (sel : FilterSel) (l : List Row) : List Row :=
  if ds.tsResolved && decide (0 < ds.rows.length) then
    l.filter (fun r =>
      decide (start_datetime sel ≤ r.ts) && decide (r.ts ≤ end_datetimeOf sel))
  else l

/-- `df_filtered` after the literal left-to-right stages 1-4. -/
def df_filtered (ds : Dataset) (sel : FilterSel) : List Row :=
  stage4 ds sel (stage3 ds sel (stage2 ds sel (stage1 ds sel ds.rows)))

/-! ### Per-stage row predicates (the specification-side conjunction view) -/

/-- Row-wise predicate of stage 1 (true when the stage is skipped). -/
def stagePred1 (ds : Dataset) (sel : FilterSel) (r : Row) : Bool :=
  !hasInEar ds || sel.earStatus.contains r.inEar

/-- Row-wise predicate of stage 2 (true when the stage is skipped or the
selection is `全部`). -/
def stagePred2 (ds : Dataset) (sel : FilterSel) (r : Row) : Bool :=
  !hasUser ds || (sel.username == "全部") || (pyStr r.user == sel.username)

/-- Row-wise predicate of stage 3. -/
def stagePred3 (ds : Dataset) (sel : FilterSel) (r : Row) : Bool :=
  !hasEarSide ds || sel.earSide.contains r.earSide

/-- Row-wise predicate of stage 4. -/
def stagePred4 (ds : Dataset) (sel : FilterSel) (r : Row) : Bool :=
  !(ds.tsResolved && decide (0 < ds.rows.length)) ||
    (decide (start_datetime sel ≤ r.ts) && decide (r.ts ≤ end_datetimeOf sel))

/-- The conjunction of the four per-stage predicates. -/
def rowPred (ds : Dataset) (sel : FilterSel) (r : Row) : Bool :=
  stagePred1 ds sel r && (stagePred2 ds sel r && (stagePred3 ds sel r && stagePred4 ds sel r))

/-- Applying a list of row predicates as successive filters. -/
def applyFilters (ps : List (Row → Bool)) (l : List Row) : List Row :=
  ps.foldl (fun acc p => acc.filter p) l

/-! ### Value-anomaly clean filter (src/csv_viewer.py lines 249-258) -/

/-- `dif_values <= 1000` for one row: a NaN (unparsable) value compares false
in pandas and is therefore dropped as well. -/
def difOk (r : Row) : Bool :=
  match r.dif with
  | some x => decide (x ≤ 1000)
  | none => false

/-- `raw_values <= 1000` for one row. -/
def rawOk (r : Row) : Bool :=
  match r.raw with
  | some x => decide (x ≤ 1000)
  | none => false

/-- Lines 252-254: the DIF pass of the clean filter, applied when the DIF
column is present. -/
def cleanStageDif (ds : Dataset) (sel : FilterSel) : List Row :=
  if hasDif ds then (df_filtered ds sel).filter difOk else df_filtered ds sel

/-- `df_filtered_clean` (lines 250-258): the filtered rows with the DIF filter
applied when the column is present, then the RAW filter when present. -/
def df_filtered_clean (ds : Dataset) (sel : FilterSel) : List Row :=
  if hasRaw ds then (cleanStageDif ds sel).filter rawOk else cleanStageDif ds sel

/-! ### Explicit anomaly flag (src/csv_viewer.py lines 285-299) -/

/-- The truthy vocabulary of line 296. -/
def abnormalVocab : List String := ["是", "yes", "true", "异常", "1", "error", "err"]

/-- Lines 286-290: first column whose name contains `异常` or, lower-cased,
contains `abnormal`. -/
def abnormalColOf (ds : Dataset) : Option String :=
  ds.cols.find? (fun c => strContains c "异常" || strContains (pyLower c) "abnormal")

/-- Lines 292-299: the per-row `是否异常` flag.  It reads only the explicit
anomaly column (through `astype(str).str.lower()` and the fixed vocabulary)
and defaults to false when no such column exists. -/
def isAbnormalFlag (ds : Dataset) (r : Row) : Bool :=
  match abnormalColOf ds with
  | some _ => abnormalVocab.contains (pyLower r.abn)
  | none => false

/-! ### Paginator (src/csv_viewer.py lines 262-283) -/

/-- `rows_per_page = 30` (line 264). -/
def rows_per_page : Nat := 30

/-- `total_pages = (total_rows + rows_per_page - 1) // rows_per_page`
(line 265). -/
def total_pages {α : Type} (l : List α) : Nat :=
  (l.length + rows_per_page - 1) / rows_per_page

/-- The page-number options `list(range(1, total_pages + 1))` of line 272. -/
def page_options {α : Type} (l : List α) : List Nat :=
  List.range' 1 (total_pages l)

/-- `df_current` (lines 281-283): `start_idx = (p-1)*30`,
`end_idx = min(start_idx + 30, total_rows)`, slice `iloc[start_idx:end_idx]`
(a slice from `start_idx` to `end_idx` drops `start_idx` rows and takes the
next `end_idx - start_idx`). -/
def pageSlice {α : Type} (l : List α) (p : Nat) : List α :=
  (l.drop ((p - 1) * rows_per_page)).take
    (min ((p - 1) * rows_per_page + rows_per_page) l.length - (p - 1) * rows_per_page)

/-! ### Pipeline outcome after filtering (src/csv_viewer.py lines 238-283) -/

/-- Result of one interaction after stage 4: either the empty-result error of
lines 240-242 (`st.error` followed by `st.stop()`, so neither the clean filter
nor pagination runs), or the clean row set together with its page count. -/
inductive PipelineResult where
  | emptyError : PipelineResult
  | pages : List Row → Nat → PipelineResult
deriving DecidableEq

/-- The pipeline from the filtered frame to pagination: line 240 checks
`len(df_filtered) == 0` and halts before lines 249-283. -/
def runPipeline (ds : Dataset) (sel : FilterSel) : PipelineResult :=
  if (df_filtered ds sel).length = 0 then PipelineResult.emptyError
  else PipelineResult.pages (df_filtered_clean ds sel) (total_pages (df_filtered_clean ds sel))

/-! ### Segmenter (src/csv_viewer.py lines 368-378) -/

/-- `idx == 0 or previous row abnormal`: `none` stands for `idx == 0`. -/
def prevFlag : Option Bool → Bool
  | none => true
  | some p => p

/-- The loop of lines 371-378 over the page flags, carrying the running
`segment_id` and the previous flag: an abnormal row increments the id; a
normal row increments it when it is the first row or follows an abnormal
row. -/
def segLoop : Nat → Option Bool → List Bool → List Nat
  | _, _, [] => []
  | sid, prev, f :: rest =>
    if f then (sid + 1) :: segLoop (sid + 1) (some true) rest
    else if prevFlag prev then (sid + 1) :: segLoop (sid + 1) (some false) rest
    else sid :: segLoop sid (some false) rest

/-- The `线段分组` column of the single-series chart (lines 368-378), with
`segment_id = 0` initially. -/
def segmentIds (flags : List Bool) : List Nat :=
  segLoop 0 none flags

/-- The literal copy of the loop computing `DIF线段分组` in the dual-series
chart (lines 479-489). -/
def difSegLoop : Nat → Option Bool → List Bool → List Nat
  | _, _, [] => []
  | sid, prev, f :: rest =>
    if f then (sid + 1) :: difSegLoop (sid + 1) (some true) rest
    else if prevFlag prev then (sid + 1) :: difSegLoop (sid + 1) (some false) rest
    else sid :: difSegLoop sid (some false) rest

/-- `DIF线段分组` (lines 479-489). -/
def difSegmentIds (flags : List Bool) : List Nat :=
  difSegLoop 0 none flags

/-- The literal copy of the loop computing `RAW线段分组` in the dual-series
chart (lines 542-552). -/
def rawSegLoop : Nat → Option Bool → List Bool → List Nat
  | _, _, [] => []
  | sid, prev, f :: rest =>
    if f then (sid + 1) :: rawSegLoop (sid + 1) (some true) rest
    else if prevFlag prev then (sid + 1) :: rawSegLoop (sid + 1) (some false) rest
    else sid :: rawSegLoop sid (some false) rest

/-- `RAW线段分组` (lines 542-552). -/
def rawSegmentIds (flags : List Bool) : List Nat :=
  rawSegLoop 0 none flags

/-! ### Chart dispatch (src/csv_viewer.py lines 345-641) -/

/-- What the chart section produces for one interaction. -/
inductive ChartOutcome where
  | chart : ChartOutcome
  | errorMsg : ChartOutcome
  | noOutput : ChartOutcome
deriving DecidableEq

/-- The `y` entries of `chart_options` (lines 330-334). -/
def yColOf (sel : String) : String :=
  if sel = "DIF趋势图" then "DIF百分比"
  else if sel = "RAW趋势图" then "RAW百分比"
  else ""

/-- The dispatch of lines 346, 457-458 and 640-641: the single-series branch
runs only when its `y` column is present (otherwise the whole `if`/`elif`
chain falls through and nothing is rendered); the dual-series branch reports
an error when either required column is absent. -/
def renderChart (sel : String) (cols : List String) : ChartOutcome :=
  if (sel = "DIF趋势图" ∨ sel = "RAW趋势图") ∧ yColOf sel ∈ cols then
    ChartOutcome.chart
  else if sel = "双系列对比" then
    if "DIF百分比" ∈ cols ∧ "RAW百分比" ∈ cols then ChartOutcome.chart
    else ChartOutcome.errorMsg
  else ChartOutcome.noOutput

/-! ### Concrete sample data for witnesses and counterexamples -/

/-- A row with every optional field missing. -/
def blankRow : Row :=
  { inEar := "", user := none, earSide := "", ts := 0, dif := none, raw := none, abn := "" }

/-- A trivial selection (used where the stages are all skipped). -/
def trivSel : FilterSel :=
  { earStatus := [], username := "全部", earSide := [],
    startDate := 0, startTime := ⟨0, 0, 0, 0⟩,
    endDate := 0, endTime := ⟨0, 0, 0, 0⟩ }

/-- An empty dataset (no columns, no rows). -/
def emptyDS : Dataset := { cols := [], tsResolved := false, rows := [] }

/-- Dataset for the stage-2 guard counterexample: an in-ear column and a user
column; the only row surviving stage 1 has a missing user name. -/
def guardDS : Dataset :=
  { cols := ["是否入耳", "用户名"], tsResolved := false,
    rows := [{ blankRow with inEar := "否", user := none },
             { blankRow with inEar := "是", user := some "alice" }] }

/-- Selections for the stage-2 guard counterexample: keep only `否` rows and
ask for user `alice`. -/
def guardSel : FilterSel :=
  { trivSel with earStatus := ["否"], username := "alice" }

/-- The guard dataset selections with the user selection left at `全部`. -/
def guardSelAll : FilterSel :=
  { trivSel with earStatus := ["否"] }

/-- Dataset with a DIF column and one row whose DIF value parsed to 1500
(the cell `1500%`). -/
def difBadDS : Dataset :=
  { cols := ["DIF百分比"], tsResolved := false,
    rows := [{ blankRow with dif := some 1500 }] }

/-- The row whose DIF cell is `1500%`. -/
def difBadRow : Row := { blankRow with dif := some 1500 }

/-- Dataset with a resolved timestamp column and one row at microsecond 5. -/
def tsDS : Dataset :=
  { cols := ["时间"], tsResolved := true, rows := [{ blankRow with ts := 5 }] }

/-- The row at microsecond 5. -/
def tsRow : Row := { blankRow with ts := 5 }

/-- Selections spanning microseconds 1 to 10 (end time with a non-zero
microsecond, hence no minute extension). -/
def tsSel : FilterSel :=
  { trivSel with startTime := ⟨0, 0, 0, 1⟩, endTime := ⟨0, 0, 0, 10⟩ }

/-! ## Segmenter lemmas -/

/-- One unfolding step of the segment loop: the assigned id increments exactly
when the row is abnormal or the previous row was abnormal (or it is the first
row). -/
theorem segLoop_cons (sid : Nat) (prev : Option Bool) (f : Bool) (rest : List Bool) :
    segLoop sid prev (f :: rest) =
      (if f || prevFlag prev then sid + 1 else sid) ::
        segLoop (if f || prevFlag prev then sid + 1 else sid) (some f) rest := by
  cases f
  · cases hp : prevFlag prev <;> simp [segLoop, hp]
  · simp [segLoop]

theorem segLoop_length : ∀ (fs : List Bool) (sid : Nat) (prev : Option Bool),
    (segLoop sid prev fs).length = fs.length := by
  intro fs
  induction fs with
  | nil => intro sid prev; rfl
  | cons f rest ih =>
    intro sid prev
    rw [segLoop_cons]
    simp [ih]

theorem segLoop_getD_zero (sid : Nat) (prev : Option Bool) (f : Bool) (rest : List Bool) :
    (segLoop sid prev (f :: rest)).getD 0 0 = if f || prevFlag prev then sid + 1 else sid := by
  rw [segLoop_cons]
  rfl

theorem segLoop_getD_succ : ∀ (fs : List Bool) (i sid : Nat) (prev : Option Bool),
    i + 1 < fs.length →
    (segLoop sid prev fs).getD (i + 1) 0 =
      (segLoop sid prev fs).getD i 0 +
        (if fs.getD (i + 1) false || fs.getD i false then 1 else 0) := by
  intro fs
  induction fs with
  | nil => intro i sid prev h; simp at h
  | cons f rest ih =>
    intro i sid prev h
    cases rest with
    | nil => simp at h
    | cons g rest2 =>
      cases i with
      | zero =>
        rw [segLoop_cons]
        simp only [List.getD_cons_succ, List.getD_cons_zero, segLoop_getD_zero]
        cases g <;> cases f <;> simp [prevFlag]
      | succ j =>
        rw [segLoop_cons]
        simp only [List.getD_cons_succ]
        exact ih j _ (some f) (by simp at h ⊢; omega)

/-- Claim C2: the segmenter assigns ids starting at 1 (the first row always
gets id 1); the id assigned to row `i+1` exceeds the id of row `i` by one
exactly when row `i+1` is anomalous or row `i` is anomalous (every anomalous
row, and every anomalous-to-normal boundary, starts a new segment; nothing
else does); and the flag sequence `[F,F,T,F,F,T,T]` receives ids
`[1,1,2,3,3,4,5]`. -/
theorem C2_segment_ids (fs : List Bool) :
    (segmentIds fs).length = fs.length ∧
    (0 < fs.length → (segmentIds fs).getD 0 0 = 1) ∧
    (∀ i, i + 1 < fs.length →
      (segmentIds fs).getD (i + 1) 0 =
        (segmentIds fs).getD i 0 +
          (if fs.getD (i + 1) false || fs.getD i false then 1 else 0)) ∧
    segmentIds [false, false, true, false, false, true, true] = [1, 1, 2, 3, 3, 4, 5] := by
  refine ⟨segLoop_length fs 0 none, ?_, ?_, by decide⟩
  · intro h
    cases fs with
    | nil => simp at h
    | cons f rest =>
      rw [segmentIds, segLoop_getD_zero]
      simp [prevFlag]
  · intro i h
    exact segLoop_getD_succ fs i 0 none h

/-- Witness for C2 at the concrete page `[F,T]`. -/
theorem C2_segment_ids_witness :
    (segmentIds [false, true]).getD 0 0 = 1 ∧
    (segmentIds [false, true]).getD (0 + 1) 0 =
      (segmentIds [false, true]).getD 0 0 +
        (if List.getD [false, true] (0 + 1) false || List.getD [false, true] 0 false
          then 1 else 0) :=
  ⟨(C2_segment_ids [false, true]).2.1 (by decide),
   (C2_segment_ids [false, true]).2.2.1 0 (by decide)⟩

theorem difSegLoop_eq_segLoop : ∀ (fs : List Bool) (sid : Nat) (prev : Option Bool),
    difSegLoop sid prev fs = segLoop sid prev fs := by
  intro fs
  induction fs with
  | nil => intro sid prev; rfl
  | cons f rest ih =>
    intro sid prev
    cases f <;> cases hp : prevFlag prev <;> simp [difSegLoop, segLoop, hp, ih]

theorem rawSegLoop_eq_segLoop : ∀ (fs : List Bool) (sid : Nat) (prev : Option Bool),
    rawSegLoop sid prev fs = segLoop sid prev fs := by
  intro fs
  induction fs with
  | nil => intro sid prev; rfl
  | cons f rest ih =>
    intro sid prev
    cases f <;> cases hp : prevFlag prev <;> simp [rawSegLoop, segLoop, hp, ih]

/-- Claim C10: the DIF segment grouping and the RAW segment grouping of the
dual-series chart are the same function of the page flags, and both agree
with the single-series grouping, so the two lines break at exactly the same
row positions. -/
theorem C10_dual_segments (fs : List Bool) :
    difSegmentIds fs = rawSegmentIds fs ∧ difSegmentIds fs = segmentIds fs := by
  constructor
  · rw [difSegmentIds, rawSegmentIds, difSegLoop_eq_segLoop, rawSegLoop_eq_segLoop]
  · rw [difSegmentIds, segmentIds, difSegLoop_eq_segLoop]

/-! ## Paginator lemmas -/

theorem pageSlice_eq_drop_take {α : Type} (l : List α) (p : Nat) :
    pageSlice l p = (l.drop ((p - 1) * rows_per_page)).take rows_per_page := by
  rw [pageSlice, List.take_eq_take]
  simp only [List.length_drop]
  omega

theorem join_pageSlices {α : Type} :
    ∀ (n : Nat) (l : List α), l.length ≤ n →
      ((List.range (total_pages l)).map
        (fun i => (l.drop (i * rows_per_page)).take rows_per_page)).flatten = l := by
  intro n
  induction n with
  | zero =>
    intro l hl
    have h0 : l = [] := List.eq_nil_of_length_eq_zero (Nat.le_zero.mp hl)
    subst h0
    simp [total_pages, rows_per_page]
  | succ n ih =>
    intro l hl
    by_cases h0 : l = []
    · subst h0
      simp [total_pages, rows_per_page]
    · have hlen : 0 < l.length := List.length_pos.mpr h0
      have hm : total_pages l = total_pages (l.drop rows_per_page) + 1 := by
        simp only [total_pages, rows_per_page, List.length_drop]
        omega
      rw [hm, List.range_succ_eq_map, List.map_cons, List.flatten_cons]
      have hmap : List.map (fun i => (l.drop (i * rows_per_page)).take rows_per_page)
            (List.map Nat.succ (List.range (total_pages (l.drop rows_per_page)))) =
          List.map (fun i => ((l.drop rows_per_page).drop (i * rows_per_page)).take rows_per_page)
            (List.range (total_pages (l.drop rows_per_page))) := by
        rw [List.map_map]
        apply List.map_congr_left
        intro i _
        simp only [Function.comp_apply]
        rw [List.drop_drop, Nat.succ_mul, Nat.add_comm]
      rw [hmap, ih (l.drop rows_per_page)
        (by simp only [List.length_drop, rows_per_page]; omega)]
      simp only [Nat.zero_mul, List.drop_zero]
      exact List.take_append_drop rows_per_page l

/-- Claim C6: for every sequence and every valid 1-based page number, the
page is the slice `[(p-1)*30 : min(p*30, count)]` (equivalently the next 30
rows after dropping `(p-1)*30`), every page holds at most 30 rows, and the
concatenation of pages `1..total_pages` rebuilds the sequence exactly, in
order. -/
theorem C6_pagination {α : Type} (l : List α) :
    (∀ p, 1 ≤ p → p ≤ total_pages l →
      pageSlice l p = (l.drop ((p - 1) * rows_per_page)).take rows_per_page ∧
      (pageSlice l p).length ≤ rows_per_page) ∧
    ((List.range (total_pages l)).map (fun i => pageSlice l (i + 1))).flatten = l := by
  constructor
  · intro p _ _
    refine ⟨pageSlice_eq_drop_take l p, ?_⟩
    rw [pageSlice_eq_drop_take]
    exact List.length_take_le rows_per_page _
  · have hfun : (fun i => pageSlice l (i + 1)) =
        fun i => (l.drop (i * rows_per_page)).take rows_per_page := by
      funext i
      rw [pageSlice_eq_drop_take]
      simp
    rw [hfun]
    exact join_pageSlices l.length l le_rfl

/-- Witness for C6: 65 rows make 3 pages and page 3 is the final slice. -/
theorem C6_pagination_witness :
    pageSlice (List.range 65) 3 =
      ((List.range 65).drop ((3 - 1) * rows_per_page)).take rows_per_page ∧
    (pageSlice (List.range 65) 3).length ≤ rows_per_page :=
  (C6_pagination (List.range 65)).1 3 (by decide) (by decide)

/-- Claim C1 counterexample: on an empty clean row set the code computes
`total_pages = (0 + 30 - 1) // 30 = 0`, not `max(1, ceil(0/30)) = 1` as the
claim states (`(n + 29) / 30` is `ceil(n/30)` on naturals). -/
theorem C1_counterexample :
    ¬ (total_pages ([] : List Nat) =
        max 1 ((List.length ([] : List Nat) + 29) / 30)) := by
  decide

/-- Claim C1 (amended): the page count is `ceil(count/30)` with no floor of
one: it equals `max(1, ceil(count/30))` whenever `filtered_clean` is
non-empty, but on an empty `filtered_clean` it is 0 and the page selector is
offered an empty option list, so page selection does not succeed. -/
theorem C1_amended {α : Type} (l : List α) :
    (l ≠ [] → total_pages l = max 1 ((l.length + 29) / 30)) ∧
    (l = [] → total_pages l = 0 ∧ page_options l = []) := by
  constructor
  · intro h
    have hlen : 0 < l.length := List.length_pos.mpr h
    have h1 : 1 ≤ (l.length + 29) / 30 := by omega
    rw [max_eq_right h1]
    simp only [total_pages, rows_per_page]
    omega
  · intro h
    subst h
    constructor
    · simp [total_pages, rows_per_page]
    · simp [page_options, total_pages, rows_per_page]

/-- Witness for the amended C1: 65 clean rows give 3 pages, the empty clean
set gives 0 pages and no page options. -/
theorem C1_amended_witness :
    total_pages (List.range 65) = max 1 ((List.length (List.range 65) + 29) / 30) ∧
    total_pages ([] : List Nat) = 0 ∧ page_options ([] : List Nat) = [] :=
  ⟨(C1_amended (List.range 65)).1 (by decide),
   ((C1_amended ([] : List Nat)).2 rfl).1, ((C1_amended ([] : List Nat)).2 rfl).2⟩

/-! ## Time-range filter -/

/-- Claim C4: if the selected end time has seconds and microseconds both
zero, the effective end is that minute plus 59.999999 seconds (the last
instant of the minute); otherwise the selected instant is unchanged; and,
when the time filter applies, a row is kept exactly when its timestamp lies
in the closed interval from `start_datetime` to the effective end. -/
theorem C4_end_extension (d : Nat) (t : PyTime) (ds : Dataset) (sel : FilterSel)
    (l : List Row) (r : Row) :
    (t.second = 0 → t.microsecond = 0 →
      end_datetime d t = combineMicros d ⟨t.hour, t.minute, 59, 999999⟩) ∧
    (¬ (t.second = 0 ∧ t.microsecond = 0) → end_datetime d t = combineMicros d t) ∧
    (ds.tsResolved = true → ds.rows ≠ [] →
      (r ∈ stage4 ds sel l ↔
        r ∈ l ∧ start_datetime sel ≤ r.ts ∧ r.ts ≤ end_datetimeOf sel)) := by
  refine ⟨?_, ?_, ?_⟩
  · intro hs hm
    rw [end_datetime, if_pos ⟨hs, hm⟩]
    simp only [combineMicros, hs, hm]
    omega
  · intro h
    rw [end_datetime, if_neg h]
  · intro ht hr
    have hlen : 0 < ds.rows.length := List.length_pos.mpr hr
    simp [stage4, ht, hlen, List.mem_filter, and_assoc]

/-- Witness for C4: end `14:05:00.000000` becomes `14:05:59.999999`, end
`14:05:30.000000` is unchanged, and the row at microsecond 5 is kept by the
range 1 to 10. -/
theorem C4_end_extension_witness :
    end_datetime 0 ⟨14, 5, 0, 0⟩ = combineMicros 0 ⟨14, 5, 59, 999999⟩ ∧
    end_datetime 0 ⟨14, 5, 30, 0⟩ = combineMicros 0 ⟨14, 5, 30, 0⟩ ∧
    (tsRow ∈ stage4 tsDS tsSel [tsRow] ↔
      tsRow ∈ [tsRow] ∧ start_datetime tsSel ≤ tsRow.ts ∧ tsRow.ts ≤ end_datetimeOf tsSel) :=
  ⟨(C4_end_extension 0 ⟨14, 5, 0, 0⟩ tsDS tsSel [tsRow] tsRow).1 rfl rfl,
   (C4_end_extension 0 ⟨14, 5, 30, 0⟩ tsDS tsSel [tsRow] tsRow).2.1 (by decide),
   (C4_end_extension 0 ⟨0, 0, 0, 0⟩ tsDS tsSel [tsRow] tsRow).2.2 rfl (by decide)⟩

/-! ## Timestamp resolver -/

theorem find?_first {p : String → Bool} :
    ∀ (cols : List String) (c : String), cols.find? p = some c →
      c ∈ cols ∧ p c = true ∧
        ∃ pre post, cols = pre ++ c :: post ∧ ∀ x ∈ pre, p x = false := by
  intro cols
  induction cols with
  | nil => intro c h; simp [List.find?] at h
  | cons a rest ih =>
    intro c h
    by_cases ha : p a = true
    · rw [List.find?_cons_of_pos _ ha] at h
      obtain rfl : a = c := by injection h
      exact ⟨List.mem_cons_self a rest, ha, [], rest, rfl, by intro x hx; simp at hx⟩
    · rw [List.find?_cons_of_neg _ ha] at h
      obtain ⟨hc, hpc, pre, post, heq, hall⟩ := ih c h
      refine ⟨List.mem_cons_of_mem a hc, hpc, a :: pre, post, by rw [heq]; rfl, ?_⟩
      intro x hx
      rcases List.mem_cons.mp hx with rfl | hx'
      · exact Bool.eq_false_iff.mpr ha
      · exact hall x hx'

/-- Claim C8: the resolver selects the first column in schema order
satisfying the candidate test (exact membership in the fixed list, or the
substring `时间`, or `time`/`timestamp` in the lower-cased name), selecting
at most one column (the result is an `Option`); it yields no column when no
name matches or when some value of the chosen column fails to parse
(all-or-nothing); and on the same schema it always yields the same choice
(in this embedding the resolver is a pure function, so determinism is
definitional). -/
theorem C8_timestamp_resolver (parse : String → Option Nat) (cols : List String)
    (vals : String → List String) :
    (∀ c, process_timestamp_column parse cols vals = some c →
      c ∈ cols ∧ isTsCandidate c = true ∧
        ∃ pre post, cols = pre ++ c :: post ∧ ∀ x ∈ pre, isTsCandidate x = false) ∧
    ((∀ c ∈ cols, isTsCandidate c = false) →
      process_timestamp_column parse cols vals = none) ∧
    (∀ c, findTsCol cols = some c → (∃ v ∈ vals c, parse v = none) →
      process_timestamp_column parse cols vals = none) ∧
    process_timestamp_column parse cols vals = process_timestamp_column parse cols vals := by
  refine ⟨?_, ?_, ?_, rfl⟩
  · intro c h
    rw [process_timestamp_column] at h
    cases hf : findTsCol cols with
    | none => rw [hf] at h; exact absurd h (by simp)
    | some c0 =>
      rw [hf] at h
      dsimp only at h
      by_cases hall : ((vals c0).all fun v => (parse v).isSome) = true
      · rw [if_pos hall] at h
        obtain rfl : c0 = c := by injection h
        exact find?_first cols c0 hf
      · rw [if_neg hall] at h
        exact absurd h (by simp)
  · intro hnone
    rw [process_timestamp_column, findTsCol,
      List.find?_eq_none.mpr (fun x hx => by simp [hnone x hx])]
  · intro c hf hex
    obtain ⟨v, hv, hpv⟩ := hex
    rw [process_timestamp_column, hf]
    dsimp only
    rw [if_neg]
    intro hall
    have := List.all_eq_true.mp hall v hv
    rw [hpv] at this
    exact absurd this (by simp)

/-- Witness for C8: a schema whose only column name matches nothing yields no
timestamp column. -/
theorem C8_timestamp_resolver_witness :
    process_timestamp_column (fun _ => none) ["x"] (fun _ => []) = none :=
  (C8_timestamp_resolver (fun _ => none) ["x"] (fun _ => [])).2.1 (by decide)

/-! ## Value-anomaly exclusion and the explicit anomaly flag -/

/-- Claim C3: a filtered row whose DIF (or RAW) cell parsed to a value above
1000 is excluded from `filtered_clean` — hence from pagination and charting,
which consume `filtered_clean` — while `filtered` itself is untouched (the
clean filter only removes rows: `filtered_clean` is a sublist of `filtered`,
which keeps feeding the summary count and the CSV export); and the per-row
anomaly flag used for segmentation never looks at the DIF/RAW values: it is
false whenever no explicit anomaly column exists, reads only that column
through the fixed truthy vocabulary when one exists, and is invariant under
any change of the DIF/RAW values. -/
theorem C3_value_anomaly (ds : Dataset) (sel : FilterSel) (r : Row) (x : ℚ) :
    (hasDif ds = true → r.dif = some x → 1000 < x → r ∉ df_filtered_clean ds sel) ∧
    (hasRaw ds = true → r.raw = some x → 1000 < x → r ∉ df_filtered_clean ds sel) ∧
    (df_filtered_clean ds sel).Sublist (df_filtered ds sel) ∧
    (abnormalColOf ds = none → isAbnormalFlag ds r = false) ∧
    (abnormalColOf ds ≠ none →
      isAbnormalFlag ds r = abnormalVocab.contains (pyLower r.abn)) ∧
    (∀ d w : Option ℚ, isAbnormalFlag ds { r with dif := d, raw := w } = isAbnormalFlag ds r) := by
  refine ⟨?_, ?_, ?_, ?_, ?_, ?_⟩
  · intro hd hdif hx hmem
    have h1 : r ∈ cleanStageDif ds sel := by
      rw [df_filtered_clean] at hmem
      by_cases hr : hasRaw ds = true
      · rw [if_pos hr] at hmem
        exact (List.mem_filter.mp hmem).1
      · rw [if_neg hr] at hmem
        exact hmem
    rw [cleanStageDif, if_pos hd] at h1
    have h2 : difOk r = true := (List.mem_filter.mp h1).2
    rw [difOk, hdif] at h2
    exact absurd (of_decide_eq_true h2) (not_le.mpr hx)
  · intro hr hraw hx hmem
    rw [df_filtered_clean, if_pos hr] at hmem
    have h2 : rawOk r = true := (List.mem_filter.mp hmem).2
    rw [rawOk, hraw] at h2
    exact absurd (of_decide_eq_true h2) (not_le.mpr hx)
  · have h1 : (cleanStageDif ds sel).Sublist (df_filtered ds sel) := by
      rw [cleanStageDif]
      by_cases hd : hasDif ds = true
      · rw [if_pos hd]; exact List.filter_sublist _
      · simp only [if_neg hd]; exact List.Sublist.refl _
    rw [df_filtered_clean]
    by_cases hr : hasRaw ds = true
    · rw [if_pos hr]
      exact List.Sublist.trans (List.filter_sublist _) h1
    · simp only [if_neg hr]; exact h1
  · intro h
    rw [isAbnormalFlag, h]
  · intro h
    obtain ⟨c, hc⟩ := Option.ne_none_iff_exists'.mp h
    rw [isAbnormalFlag, hc]
  · intro d w
    rfl

/-- Witness for C3: the row whose DIF cell was `1500%` is dropped from the
clean set. -/
theorem C3_value_anomaly_witness :
    difBadRow ∉ df_filtered_clean difBadDS trivSel :=
  (C3_value_anomaly difBadDS trivSel difBadRow 1500).1 (by decide) rfl (by decide)

/-! ## Empty-result halt -/

/-- Claim C9: when stage 4 leaves no rows, the pipeline reports the
user-facing empty-result error and halts: the outcome carries neither a
clean row set nor any pagination, so the value-anomaly exclusion, pagination
and charting are never reached. -/
theorem C9_empty_filtered_halts (ds : Dataset) (sel : FilterSel)
    (h : df_filtered ds sel = []) :
    runPipeline ds sel = PipelineResult.emptyError := by
  simp [runPipeline, h]

/-- Witness for C9 on the empty dataset. -/
theorem C9_empty_filtered_halts_witness :
    runPipeline emptyDS trivSel = PipelineResult.emptyError :=
  C9_empty_filtered_halts emptyDS trivSel rfl

/-! ## Chart dispatch -/

/-- Claim C5 counterexample: selecting the DIF chart when `DIF百分比` is
absent produces no chart but also no error message — the `if`/`elif` chain
falls through silently, contradicting the claim that an error is reported
for every variant. -/
theorem C5_counterexample :
    renderChart "DIF趋势图" ([] : List String) = ChartOutcome.noOutput ∧
    ChartOutcome.noOutput ≠ ChartOutcome.errorMsg := by
  exact ⟨by decide, by decide⟩

/-- Claim C5 (amended): when the required column of a single-series chart
(`DIF百分比` for the DIF chart, `RAW百分比` for the RAW chart) is missing, no
chart is produced and no error is reported (the chart section renders
nothing); only the dual-series chart reports an error when either required
column is missing, and it produces no chart in that case. -/
theorem C5_amended (cols : List String) :
    ("DIF百分比" ∉ cols → renderChart "DIF趋势图" cols = ChartOutcome.noOutput) ∧
    ("RAW百分比" ∉ cols → renderChart "RAW趋势图" cols = ChartOutcome.noOutput) ∧
    (¬ ("DIF百分比" ∈ cols ∧ "RAW百分比" ∈ cols) →
      renderChart "双系列对比" cols = ChartOutcome.errorMsg) := by
  refine ⟨?_, ?_, ?_⟩
  · intro h
    have hy : yColOf "DIF趋势图" = "DIF百分比" := rfl
    rw [renderChart, if_neg (fun hc => h (hy ▸ hc.2)), if_neg (by decide)]
  · intro h
    have hy : yColOf "RAW趋势图" = "RAW百分比" := rfl
    rw [renderChart, if_neg (fun hc => h (hy ▸ hc.2)), if_neg (by decide)]
  · intro h
    rw [renderChart,
      if_neg (fun hc => (by decide :
        ¬ ("双系列对比" = "DIF趋势图" ∨ "双系列对比" = "RAW趋势图")) hc.1),
      if_pos (by decide : "双系列对比" = "双系列对比"), if_neg h]

/-- Witness for the amended C5: with no columns the DIF chart renders
nothing; with only `RAW百分比` the dual-series chart reports the error. -/
theorem C5_amended_witness :
    renderChart "RAW趋势图" ([] : List String) = ChartOutcome.noOutput ∧
    renderChart "双系列对比" ["RAW百分比"] = ChartOutcome.errorMsg :=
  ⟨(C5_amended []).2.1 (by decide), (C5_amended ["RAW百分比"]).2.2 (by decide)⟩

/-! ## Filter-stage algebra -/

theorem filters_compose (l : List Row) (p q : Row → Bool) :
    (l.filter p).filter q = l.filter (fun r => p r && q r) := by
  induction l with
  | nil => rfl
  | cons a l ih => cases hp : p a <;> cases hq : q a <;> simp [hp, hq, ih]

theorem filter_of_true (l : List Row) (p : Row → Bool) (h : ∀ r, p r = true) :
    l.filter p = l := by
  rw [List.filter_eq_self]
  intro a _
  exact h a

theorem stage1_eq_filter (ds : Dataset) (sel : FilterSel) (l : List Row) :
    stage1 ds sel l = l.filter (stagePred1 ds sel) := by
  cases h : hasInEar ds
  · simp only [stage1, h]
    rw [if_neg (by simp), filter_of_true l _ (fun r => by simp [stagePred1, h])]
  · simp only [stage1, h, if_true]
    exact List.filter_congr (fun r _ => by simp [stagePred1, h])

theorem stage3_eq_filter (ds : Dataset) (sel : FilterSel) (l : List Row) :
    stage3 ds sel l = l.filter (stagePred3 ds sel) := by
  cases h : hasEarSide ds
  · simp only [stage3, h]
    rw [if_neg (by simp), filter_of_true l _ (fun r => by simp [stagePred3, h])]
  · simp only [stage3, h, if_true]
    exact List.filter_congr (fun r _ => by simp [stagePred3, h])

theorem stage4_eq_filter (ds : Dataset) (sel : FilterSel) (l : List Row) :
    stage4 ds sel l = l.filter (stagePred4 ds sel) := by
  cases h : (ds.tsResolved && decide (0 < ds.rows.length))
  · simp only [stage4, h]
    rw [if_neg (by simp), filter_of_true l _ (fun r => by simp [stagePred4, h])]
  · simp only [stage4, h, if_true]
    exact List.filter_congr (fun r _ => by simp [stagePred4, h])

theorem stage2_eq_filter (ds : Dataset) (sel : FilterSel) (l : List Row)
    (h : sel.username = "全部" ∨ l.any (fun r => r.user.isSome) = true) :
    stage2 ds sel l = l.filter (stagePred2 ds sel) := by
  rcases h with h | h
  · cases hg : (hasUser ds && l.any fun r => r.user.isSome)
    · simp only [stage2, hg]
      rw [if_neg (by simp), filter_of_true l _ (fun r => by simp [stagePred2, h])]
    · simp only [stage2, hg, if_true]
      rw [if_neg (by simp [h]),
        filter_of_true l _ (fun r => by simp [stagePred2, h])]
  · cases hu : hasUser ds
    · simp only [stage2, hu, Bool.false_and]
      rw [if_neg (by simp), filter_of_true l _ (fun r => by simp [stagePred2, hu])]
    · simp only [stage2, hu, Bool.true_and, h, if_true]
      by_cases hne : sel.username = "全部"
      · rw [if_neg (by simp [hne]),
          filter_of_true l _ (fun r => by simp [stagePred2, hne])]
      · have hbeq : (sel.username == "全部") = false := by
          simp [hne]
        rw [if_pos hne]
        exact List.filter_congr (fun r _ => by simp [stagePred2, hu, hbeq])

theorem applyFilters_eq (ps : List (Row → Bool)) (l : List Row) :
    applyFilters ps l = l.filter (fun r => ps.all (fun p => p r)) := by
  induction ps generalizing l with
  | nil => simp [applyFilters]
  | cons p ps ih =>
    have h1 : applyFilters (p :: ps) l = applyFilters ps (l.filter p) := rfl
    rw [h1, ih, filters_compose]
    apply List.filter_congr
    intro r _
    simp

theorem all_perm (ps qs : List (Row → Bool)) (h : List.Perm ps qs) (r : Row) :
    ps.all (fun p => p r) = qs.all (fun p => p r) := by
  induction h with
  | nil => rfl
  | cons p _ ih => simp [ih]
  | swap p q l => cases hp : p r <;> cases hq : q r <;> simp [hp, hq]
  | trans _ _ ih1 ih2 => rw [ih1, ih2]

theorem df_filtered_eq_filter (ds : Dataset) (sel : FilterSel)
    (h : sel.username = "全部" ∨ ∃ r ∈ stage1 ds sel ds.rows, r.user.isSome = true) :
    df_filtered ds sel = ds.rows.filter (rowPred ds sel) := by
  have h2 : sel.username = "全部" ∨
      (stage1 ds sel ds.rows).any (fun r => r.user.isSome) = true := by
    rcases h with h | ⟨r, hr, hs⟩
    · exact Or.inl h
    · exact Or.inr (List.any_eq_true.mpr ⟨r, hr, hs⟩)
  rw [df_filtered, stage2_eq_filter ds sel _ h2, stage1_eq_filter, stage3_eq_filter,
    stage4_eq_filter]
  simp only [filters_compose]
  apply List.filter_congr
  intro r _
  rw [rowPred]
  cases stagePred1 ds sel r <;> cases stagePred2 ds sel r <;>
    cases stagePred3 ds sel r <;> cases stagePred4 ds sel r <;> rfl

/-- Claim C7 counterexample: on `guardDS`/`guardSel` the literal pipeline
keeps the row with the missing user name (stage 2 skips the user filter
because every row it receives has a missing `用户名`), so the filtered set
differs from the conjunction of the four per-stage predicates, and running
stage 2 first yields yet another result — the stages are not row-wise and
their order matters. -/
theorem C7_counterexample :
    df_filtered guardDS guardSel ≠ guardDS.rows.filter (rowPred guardDS guardSel) ∧
    stage4 guardDS guardSel (stage3 guardDS guardSel (stage1 guardDS guardSel
      (stage2 guardDS guardSel guardDS.rows))) ≠ df_filtered guardDS guardSel := by
  constructor <;> decide

/-- Claim C7 (amended): stages 1, 3 and 4 are row-wise filters; stage 2 is a
row-wise filter except that it is skipped entirely when every row of its
input lacks a user name.  Provided the user selection is `全部` or some row
surviving stage 1 carries a user name — which holds for every selection the
UI can actually offer — the filtered set equals the rows satisfying the
conjunction of the four per-stage predicates, and applying those four
predicates as filters in any order yields that same set. -/
theorem C7_amended (ds : Dataset) (sel : FilterSel)
    (h : sel.username = "全部" ∨ ∃ r ∈ stage1 ds sel ds.rows, r.user.isSome = true) :
    df_filtered ds sel = ds.rows.filter (rowPred ds sel) ∧
    ∀ qs : List (Row → Bool),
      List.Perm qs [stagePred1 ds sel, stagePred2 ds sel, stagePred3 ds sel,
        stagePred4 ds sel] →
      applyFilters qs ds.rows = df_filtered ds sel := by
  have hmain := df_filtered_eq_filter ds sel h
  refine ⟨hmain, ?_⟩
  intro qs hperm
  rw [applyFilters_eq, hmain]
  apply List.filter_congr
  intro r _
  rw [all_perm qs _ hperm r]
  simp [rowPred]

/-- Witness for the amended C7 on `guardDS` with the user selection `全部`. -/
theorem C7_amended_witness :
    df_filtered guardDS guardSelAll = guardDS.rows.filter (rowPred guardDS guardSelAll) ∧
    applyFilters [stagePred1 guardDS guardSelAll, stagePred2 guardDS guardSelAll,
      stagePred3 guardDS guardSelAll, stagePred4 guardDS guardSelAll] guardDS.rows =
      df_filtered guardDS guardSelAll :=
  ⟨(C7_amended guardDS guardSelAll (Or.inl rfl)).1,
   (C7_amended guardDS guardSelAll (Or.inl rfl)).2 _ (List.Perm.refl _)⟩

end SensorViewer
